import Mathlib

/-!
Verification development for the control loop, tool layer and perception
builder of the `ensured` UI-testing agent.

The Python sources are shallowly embedded:
  * `src/src/agent.py`   : `tool_node`, `llm_call` routing, `build_ui_manifest_common`
  * `src/agent.py`       : `build_ui_manifest`, `should_continue_from_llm`, `MAX_LLM_CALLS`
  * `src/browser_tools.py` / `src/src/computer_tools.py` : `_run_with_timeout`,
    `coord_click` / `click`, `finish`
Python strings are Lean `String`s; the Python methods `str.strip`, `str.lower`
and `str.startswith` are embedded as list-of-character functions so that all
definitions evaluate by kernel reduction.
-/

/-- Embedding of Python `str.lower()` (ASCII case folding, which is all the
source compares). -/
def pyLower (s : String) : String := ⟨s.data.map Char.toLower⟩

/-- Embedding of Python `str.strip()`: drop whitespace from both ends. -/
def pyStrip (s : String) : String :=
  ⟨((s.data.dropWhile Char.isWhitespace).reverse.dropWhile Char.isWhitespace).reverse⟩

/-- Embedding of Python `s.startswith(pre)`. -/
def pyStartswith (s pre : String) : Bool := pre.data.isPrefixOf s.data

/-- Truthiness of an optional Python string: `None` and `""` are falsy. -/
def pyTruthy : Option String → Bool
  | none => false
  | some s => s != ""

/-- Embedding of the Python idiom `value or default` for optional strings
(used by the manifest formatting, e.g. `name or '(no name)'`). -/
def pyOrStr (v : Option String) (dflt : String) : String :=
  match v with
  | some s => if s == "" then dflt else s
  | none => dflt

/-- An apostrophe character, used in embedded message strings. -/
def squote : String := ⟨[Char.ofNat 39]⟩

/-- Session status, the `status` field of `AgentState` in `src/src/agent.py`
(`Literal["in_progress", "success", "failure"]`). -/
inductive Status where
  | in_progress
  | success
  | failure
deriving DecidableEq, Repr

/-- A tool invocation issued by the decision model: a tool name plus keyword
arguments (string-valued, which is all the finish classification reads). -/
structure ToolCall where
  name : String
  args : List (String × String)
deriving DecidableEq, Repr

/-- Embedding of `str(tool_call.get("args", {}).get("reason", ""))` from
`tool_node` in `src/src/agent.py`. -/
def argReason (tc : ToolCall) : String :=
  (List.lookup "reason" tc.args).getD ""

/-- Classification of a finish reason into a session status, embedded from
`tool_node` in `src/src/agent.py` lines 244-252:
`reason = str(...).strip().lower()`; a prefix `"task success"` or `"success"`
sets `success`, a prefix `"failure"` sets `failure`, anything else leaves the
status as it was. -/
def classify_finish_reason (status : Status) (rawReason : String) : Status :=
  if pyStartswith (pyLower (pyStrip rawReason)) "task success"
      || pyStartswith (pyLower (pyStrip rawReason)) "success" then
    Status.success
  else if pyStartswith (pyLower (pyStrip rawReason)) "failure" then
    Status.failure
  else
    status

/-- Accumulated state while `tool_node` iterates over one decision batch:
the tool messages appended so far, the session status, the `finished` flag
and (for auditing the effects on the environment) the calls that were
actually invoked via `await t.ainvoke(...)`. -/
structure ToolBatchState where
  results : List String
  status : Status
  finished : Bool
  executed : List ToolCall
deriving DecidableEq, Repr

/-- The synthesized result string for an unregistered tool name,
from `tool_node` in `src/src/agent.py` lines 224-233. -/
def unknown_tool_error (name supported : String) : String :=
  "ERROR: Unknown tool " ++ squote ++ name ++ squote
    ++ ". Use only the supported tools: " ++ supported ++ "."

/-- One iteration of the `for tool_call in state["messages"][-1].tool_calls`
loop of `tool_node` in `src/src/agent.py` lines 216-252: unknown names get a
synthesized error and are skipped; registered tools are invoked and their
observation recorded; a `finish` call additionally sets `finished` and
classifies its reason into the status. -/
def processCall (registered : List String) (supported : String)
    (invoke : ToolCall → String) (acc : ToolBatchState) (tc : ToolCall) :
    ToolBatchState :=
  if !(registered.contains tc.name) then
    { acc with results := acc.results ++ [unknown_tool_error tc.name supported] }
  else if tc.name == "finish" then
    { results := acc.results ++ [invoke tc]
      status := classify_finish_reason acc.status (argReason tc)
      finished := true
      executed := acc.executed ++ [tc] }
  else
    { acc with
      results := acc.results ++ [invoke tc]
      executed := acc.executed ++ [tc] }

/-- The whole `tool_node` loop body of `src/src/agent.py` lines 207-261:
iterate over the decision batch in order, starting from empty results and
`finished = False`. -/
def tool_node (registered : List String) (supported : String)
    (invoke : ToolCall → String) (status : Status) (calls : List ToolCall) :
    ToolBatchState :=
  calls.foldl (processCall registered supported invoke) ⟨[], status, false, []⟩

/-- Tool names registered by `make_tools` in `src/browser_tools.py`
lines 342-355 (the browser-mode registry that `src/src/agent.py` wires into
`tool_node`). -/
def browser_tool_names : List String :=
  ["click", "check", "input", "dropdown", "coord_click", "scroll",
   "type", "keypress", "goto", "back", "wait", "finish"]

/-- The `supported_tool_names` string of `src/browser_tools.py` line 357:
the sorted, quoted, comma-separated registry names. -/
def browser_supported_names : String :=
  String.intercalate ", "
    ((["back", "check", "click", "coord_click", "dropdown", "finish",
       "goto", "input", "keypress", "scroll", "type", "wait"]).map
      (fun n => squote ++ n ++ squote))

/-- Loop-visible session state of the `src/src/agent.py` graph: the status
and the `llm_calls` counter. -/
structure LoopState where
  status : Status
  llmCalls : Nat
deriving DecidableEq, Repr

/-- Fuel-indexed run of the `src/src/agent.py` graph from `llm_call`:
each step is one `llm_call` turn (lines 162-204: increment `llm_calls`,
keep the status, go to `tool_node` exactly when the reply carries tool
calls, else re-observe), followed, when a batch is present, by `tool_node`
(lines 207-261: classify finishes and go to `END` when `finished`).
`decider n` is the batch the decision model returns on the `n`-th call
(`[]` meaning a reply without tool calls); the returned flag records
whether `END` was reached within the given fuel. -/
def runLoop (registered : List String) (supported : String)
    (invoke : ToolCall → String) (decider : Nat → List ToolCall) :
    Nat → LoopState → LoopState × Bool
  | 0, st => (st, false)
  | fuel + 1, st =>
    if (decider st.llmCalls).isEmpty then
      runLoop registered supported invoke decider fuel ⟨st.status, st.llmCalls + 1⟩
    else if (tool_node registered supported invoke st.status (decider st.llmCalls)).finished then
      (⟨(tool_node registered supported invoke st.status (decider st.llmCalls)).status,
        st.llmCalls + 1⟩, true)
    else
      runLoop registered supported invoke decider fuel
        ⟨(tool_node registered supported invoke st.status (decider st.llmCalls)).status,
         st.llmCalls + 1⟩

/-- A Python exception, reduced to what the tool layer renders:
`type(e).__name__` and `str(e)`. -/
structure PyExc where
  kind : String
  msg : String
deriving DecidableEq, Repr

/-- Embedding of `_run_with_timeout` from `src/browser_tools.py` lines 14-30
and `src/src/computer_tools.py` lines 13-23: the awaited operation either
completes or raises (a timeout surfaces as an `asyncio.TimeoutError`, caught
by the same `except Exception` arm). -/
def run_with_timeout (operation : String) (outcome : Except PyExc Unit) : String :=
  match outcome with
  | Except.ok _ => "OK: " ++ operation
  | Except.error e => "ERROR: " ++ e.kind ++ ": " ++ e.msg

/-- Embedding of the `finish` tool of `src/browser_tools.py` lines 325-340
(identical in `src/src/computer_tools.py` lines 267-270): it performs no
environment action and returns `f"TASK_COMPLETE: {reason}"`. -/
def finish (reason : String) : String := "TASK_COMPLETE: " ++ reason

/-- A stand-in invoker for closed examples: returns the registered tool's
result string without modelling the environment further. -/
def stub_invoke : ToolCall → String :=
  fun tc => if tc.name == "finish" then finish (argReason tc) else "OK: stub"

/-- A finish invocation with the given free-text reason, as the decision
model issues it. -/
def finish_call (reason : String) : ToolCall :=
  ⟨"finish", [("reason", reason)]⟩

/-- A goto invocation, used as a representative non-finish action. -/
def goto_call : ToolCall :=
  ⟨"goto", [("url", "https://example.com")]⟩

/-- A point returned by the Moondream pointing service: normalized
coordinates, each read with `float(point.get("x", 0.0))` (floats are
embedded as rationals; none of the verified claims depends on rounding). -/
structure MDPoint where
  x : Option ℚ := none
  y : Option ℚ := none
deriving DecidableEq, Repr

/-- Outcome of an awaited call guarded by `asyncio.wait_for` inside
`coord_click`: it returns a value, times out (`asyncio.TimeoutError`,
caught by the dedicated inner handler), or raises some other exception
(which escapes to the outer `except Exception`). -/
inductive AwaitOutcome (α : Type) where
  | ok (val : α)
  | timeout (msg : String)
  | raised (e : PyExc)
deriving DecidableEq, Repr

/-- Observable side effects of the vision-grounded click tool on its
collaborators: taking the screenshot, calling the pointing service, and
clicking at a pixel coordinate. -/
inductive Effect where
  | screenshotTaken
  | moondreamCalled
  | clicked (x y : ℚ)
deriving DecidableEq, Repr

/-- The external world as `coord_click` consumes it: the
`MOONDREAM_API_KEY` environment variable (`none` when unset), the
screenshot call, the Moondream `point` call (whose payload is
`result.get("points")`, possibly absent), and the Playwright click. -/
structure CoordClickEnv where
  apiKey : Option String
  screenshot : Except PyExc Unit
  point : AwaitOutcome (Option (List MDPoint))
  click : AwaitOutcome Unit

/-- Embedding of `coord_click` from `src/browser_tools.py` lines 131-205
(the same control flow as `coord_click` in `src/agent.py` lines 217-300 and
`click` in `src/src/computer_tools.py` lines 186-253): check the API key
before anything else, then screenshot, then point, then guard the empty
points list, then click; on success return the normalized point as
`"(x, y)"`. The second component lists the effects performed. -/
def coord_click (env : CoordClickEnv) : String × List Effect :=
  if !(pyTruthy env.apiKey) then
    ("ERROR: MOONDREAM_API_KEY environment variable is not set", [])
  else
    match env.screenshot with
    | Except.error e => ("ERROR: " ++ e.kind ++ ": " ++ e.msg, [])
    | Except.ok _ =>
      match env.point with
      | AwaitOutcome.timeout m =>
          ("ERROR: Timeout during Moondream point call: " ++ m,
           [Effect.screenshotTaken, Effect.moondreamCalled])
      | AwaitOutcome.raised e =>
          ("ERROR: " ++ e.kind ++ ": " ++ e.msg,
           [Effect.screenshotTaken, Effect.moondreamCalled])
      | AwaitOutcome.ok pts =>
        match pts.getD [] with
        | [] =>
            ("ERROR: Moondream returned no points",
             [Effect.screenshotTaken, Effect.moondreamCalled])
        | p :: _ =>
          match env.click with
          | AwaitOutcome.timeout m =>
              ("ERROR: Timeout during Playwright click: " ++ m,
               [Effect.screenshotTaken, Effect.moondreamCalled])
          | AwaitOutcome.raised e =>
              ("ERROR: " ++ e.kind ++ ": " ++ e.msg,
               [Effect.screenshotTaken, Effect.moondreamCalled])
          | AwaitOutcome.ok _ =>
              ("(" ++ toString (p.x.getD 0) ++ ", " ++ toString (p.y.getD 0) ++ ")",
               [Effect.screenshotTaken, Effect.moondreamCalled,
                Effect.clicked (p.x.getD 0 * 1280) (p.y.getD 0 * 720)])

/-- A coord_click environment in which every collaborator succeeds and the
pointing service returns one point. -/
def happy_click_env : CoordClickEnv :=
  ⟨some "md-key", Except.ok (), AwaitOutcome.ok (some [⟨some 1, some 1⟩]),
   AwaitOutcome.ok ()⟩

mutual

/-- A node of an accessibility snapshot as the walks consume it. For a
dict node the fields hold the values after the browser/computer key
coalescing of `src/src/agent.py` lines 135-138 (`role or AXRole`, etc.);
`arr` is a list value (walked elementwise by the common walk, ignored by
the v1 walk); `prim` is any other value, carrying its `str()` rendering. -/
inductive AXTree where
  | node (role name : Option String) (disabled hidden : Bool) (children : AXForest)
  | arr (items : AXForest)
  | prim (repr : String)

/-- A sequence of accessibility values (children lists). -/
inductive AXForest where
  | nil
  | cons (head : AXTree) (tail : AXForest)

end

/-- Manifest line format of `build_ui_manifest_common` in
`src/src/agent.py` line 143:
`f"- {role or '(no role)'}: {name or '(no name)'}{suffix}"`. -/
def manifest_line_common (role name : Option String) (disabled : Bool) : String :=
  "- " ++ pyOrStr role "(no role)" ++ ": " ++ pyOrStr name "(no name)"
    ++ (if disabled then " [disabled]" else "")

mutual

/-- The `walk` of `build_ui_manifest_common` in `src/src/agent.py`
lines 132-151: a dict node emits its line when it is not hidden and has a
truthy role or name, and its children are walked afterwards (the children
loop sits outside the `if not hidden` block); a list is walked
elementwise; anything else is ignored. Returns the lines appended, in
order. -/
def walk_common : AXTree → List String
  | AXTree.node role name disabled hidden children =>
      (if !hidden && (pyTruthy role || pyTruthy name) then
        [manifest_line_common role name disabled]
      else []) ++ walk_common_forest children
  | AXTree.arr items => walk_common_forest items
  | AXTree.prim _ => []

/-- Walk of a children list by `walk_common`, in order. -/
def walk_common_forest : AXForest → List String
  | AXForest.nil => []
  | AXForest.cons t ts => walk_common t ++ walk_common_forest ts

end

/-- The `roles_of_interest` set of `build_ui_manifest` in `src/agent.py`
lines 423-444. -/
def roles_of_interest : List String :=
  ["button", "link", "textbox", "checkbox", "radio", "combobox", "option",
   "tab", "tablist", "tabpanel", "heading", "menuitem", "listitem", "group",
   "dialog", "spinbutton", "slider", "switch", "progressbar", "alert"]

/-- The container roles that `build_ui_manifest` in `src/agent.py` line 455
emits even without a name. -/
def container_roles : List String := ["heading", "group", "tablist", "tabpanel"]

/-- Manifest line format of `build_ui_manifest` in `src/agent.py`
line 457: `f"- {role}: {name or '(no name)'}{suffix}"` (the role here is
known to be a string from the roles of interest). -/
def manifest_line_v1 (role : String) (name : Option String) (disabled : Bool) : String :=
  "- " ++ role ++ ": " ++ pyOrStr name "(no name)"
    ++ (if disabled then " [disabled]" else "")

mutual

/-- The `walk` of `build_ui_manifest` in `src/agent.py` lines 448-459:
non-dict values are ignored; a dict node emits its line when it is not
hidden, its role is of interest, and it has a truthy name or a container
role; its children are walked afterwards (again outside the hidden
check). -/
def walk_v1 : AXTree → List String
  | AXTree.node role name disabled hidden children =>
      (if !hidden then
        match role with
        | some r =>
          if roles_of_interest.contains r
              && (pyTruthy name || container_roles.contains r) then
            [manifest_line_v1 r name disabled]
          else []
        | none => []
      else []) ++ walk_v1_forest children
  | AXTree.arr _ => []
  | AXTree.prim _ => []

/-- Walk of a children list by `walk_v1`, in order. -/
def walk_v1_forest : AXForest → List String
  | AXForest.nil => []
  | AXForest.cons t ts => walk_v1 t ++ walk_v1_forest ts

end

/-- The manifest line list of `build_ui_manifest_common`: the walk output
capped by `lines[:300]` (`src/src/agent.py` line 159). -/
def manifest_lines_common (root : AXTree) : List String :=
  (walk_common root).take 300

/-- The manifest line list of `build_ui_manifest`: the walk output capped
by `lines[:300]` (`src/agent.py` line 464). -/
def manifest_lines_v1 (root : AXTree) : List String :=
  (walk_v1 root).take 300

/-- Embedding of `build_ui_manifest_common` from `src/src/agent.py`
lines 113-159: a raised snapshot extraction becomes a
`UI_MANIFEST_ERROR` placeholder, a falsy snapshot (or a walk with no
lines) becomes `UI_MANIFEST_EMPTY`, a scalar snapshot is returned as its
`str()`, and otherwise the first 300 walk lines are joined. -/
def build_ui_manifest_common (snap : Except PyExc (Option AXTree)) : String :=
  match snap with
  | Except.error e => "UI_MANIFEST_ERROR: " ++ e.kind ++ ": " ++ e.msg
  | Except.ok none => "UI_MANIFEST_EMPTY"
  | Except.ok (some (AXTree.prim s)) => s
  | Except.ok (some root) =>
    if (walk_common root).isEmpty then "UI_MANIFEST_EMPTY"
    else String.intercalate "\n" (manifest_lines_common root)

/-- Embedding of `build_ui_manifest` from `src/agent.py` lines 414-464. -/
def build_ui_manifest (snap : Except PyExc (Option AXTree)) : String :=
  match snap with
  | Except.error e => "UI_MANIFEST_ERROR: " ++ e.kind ++ ": " ++ e.msg
  | Except.ok none => "UI_MANIFEST_EMPTY"
  | Except.ok (some root) =>
    if (walk_v1 root).isEmpty then "UI_MANIFEST_EMPTY"
    else String.intercalate "\n" (manifest_lines_v1 root)

/-- A small concrete accessibility tree used by closed examples. -/
def demo_tree : AXTree :=
  AXTree.node (some "dialog") (some "Sign in") false false
    (AXForest.cons (AXTree.node (some "button") (some "Continue") false false AXForest.nil)
      (AXForest.cons (AXTree.node (some "textbox") (some "Email") true false AXForest.nil)
        AXForest.nil))

/-- A tree whose root is marked hidden but has a visible, named child. -/
def hidden_parent_tree : AXTree :=
  AXTree.node (some "group") (some "Hidden Panel") false true
    (AXForest.cons (AXTree.node (some "button") (some "OK") false false AXForest.nil)
      AXForest.nil)

/-- The call-budget ceiling `MAX_LLM_CALLS` of `src/agent.py` line 43. -/
def MAX_LLM_CALLS : Nat := 20

/-- Loop-visible state of the `src/agent.py` graph: the `llm_calls`
counter and the `task_success` flag. -/
structure AgentV1State where
  llmCalls : Nat
  taskSuccess : Bool
deriving DecidableEq, Repr

/-- Evaluation of the injected success predicate as `llm_call` in
`src/agent.py` lines 500-505 performs it: a raised predicate is caught and
treated as `False`. -/
def eval_is_success (outcome : Except PyExc Bool) : Bool :=
  match outcome with
  | Except.ok b => b
  | Except.error _ => false

/-- Fuel-indexed run of the `src/agent.py` graph from `llm_call`.
Each step is one observe cycle: `llm_call` (lines 406-512) increments
`llm_calls` and refreshes `task_success`; then `should_continue_from_llm`
(lines 542-551) ends the session on success, ends it when the counter has
reached `maxCalls`, goes to `tool_node` when the reply carried tool calls
(tool execution preserves `task_success`, lines 518-540, and
`should_continue_from_tool`, lines 553-556, re-checks it), and otherwise
re-observes. `is_success_at n` is the predicate outcome during the `n`-th
cycle, `toolcalls_at n` whether that cycle's reply carried tool calls;
`none` means the fuel ran out before the graph reached `END`. -/
def run_agent_v1 (maxCalls : Nat) (is_success_at : Nat → Except PyExc Bool)
    (toolcalls_at : Nat → Bool) : Nat → AgentV1State → Option AgentV1State
  | 0, _ => none
  | fuel + 1, st =>
    if st.taskSuccess || eval_is_success (is_success_at st.llmCalls) then
      some ⟨st.llmCalls + 1, st.taskSuccess || eval_is_success (is_success_at st.llmCalls)⟩
    else if maxCalls ≤ st.llmCalls + 1 then
      some ⟨st.llmCalls + 1, st.taskSuccess || eval_is_success (is_success_at st.llmCalls)⟩
    else if toolcalls_at st.llmCalls then
      if st.taskSuccess || eval_is_success (is_success_at st.llmCalls) then
        some ⟨st.llmCalls + 1, st.taskSuccess || eval_is_success (is_success_at st.llmCalls)⟩
      else
        run_agent_v1 maxCalls is_success_at toolcalls_at fuel
          ⟨st.llmCalls + 1, st.taskSuccess || eval_is_success (is_success_at st.llmCalls)⟩
    else
      run_agent_v1 maxCalls is_success_at toolcalls_at fuel
        ⟨st.llmCalls + 1, st.taskSuccess || eval_is_success (is_success_at st.llmCalls)⟩

/-- Modelled from the spec: a top-level statement of a caller-supplied
script as the Sandboxed Script Executor's validator sees it (the
executor's code is not under `src/`; only spec section 4.3 describes it).
A statement is an asynchronous function definition, a synchronous one, or
any other top-level statement. -/
inductive PyStmt where
  | asyncFunctionDef (name : String) (params : Nat) (body : List String)
  | functionDef (name : String) (params : Nat) (body : List String)
  | other (srcText : String)
deriving DecidableEq, Repr

/-- Modelled from the spec: the result of parsing the script text into a
syntax tree - a parse failure or a list of top-level statements. -/
inductive ParseResult where
  | failure (msg : String)
  | ok (stmts : List PyStmt)
deriving DecidableEq, Repr

/-- Modelled from the spec: the structural validation of section 4.3 -
exactly one top-level definition, asynchronous, named `main`, taking a
single parameter, and zero other top-level statements. -/
def script_format_ok : List PyStmt → Bool
  | [PyStmt.asyncFunctionDef name params _] => name == "main" && params == 1
  | _ => false

/-- Modelled from the spec: a side effect of actually running the script
body (the claims only need that rejection performs none). -/
inductive ScriptEffect where
  | executedMain
deriving DecidableEq, Repr

/-- Modelled from the spec: `run(script_text, timeout)` of the Sandboxed
Script Executor, restricted to its validation phase. A parse failure or a
structurally invalid script yields `"ERROR: format: ..."` and executes
nothing; a valid script proceeds to execution (abstracted as the given
result string). -/
def run_script (parsed : ParseResult) (execResult : String) :
    String × List ScriptEffect :=
  match parsed with
  | ParseResult.failure msg => ("ERROR: format: " ++ msg, [])
  | ParseResult.ok stmts =>
    if script_format_ok stmts then (execResult, [ScriptEffect.executedMain])
    else ("ERROR: format: script must contain exactly one top-level async def main taking one parameter", [])

/-- Once a finish invocation has set the `finished` flag, processing a
further invocation of the same batch never clears it. -/
theorem processCall_finished_mono (registered : List String) (supported : String)
    (invoke : ToolCall → String) (acc : ToolBatchState) (tc : ToolCall)
    (h : acc.finished = true) :
    (processCall registered supported invoke acc tc).finished = true := by
  by_cases hc : tc.name ∈ registered
  · by_cases hf : tc.name = "finish"
    · have hc2 : "finish" ∈ registered := hf ▸ hc
      simp [processCall, hc2, hf]
    · simp [processCall, hc, hf, h]
  · simp [processCall, hc, h]

/-- The `finished` flag survives the rest of a batch fold. -/
theorem foldl_finished_mono (registered : List String) (supported : String)
    (invoke : ToolCall → String) :
    ∀ (calls : List ToolCall) (acc : ToolBatchState), acc.finished = true →
      (calls.foldl (processCall registered supported invoke) acc).finished = true := by
  intro calls
  induction calls with
  | nil => intro acc h; simpa using h
  | cons tc rest ih =>
      intro acc h
      simp only [List.foldl_cons]
      exact ih _ (processCall_finished_mono registered supported invoke acc tc h)

/-- Processing one invocation without ending up finished leaves the status
untouched (only a registered finish call writes the status, and it also
sets `finished`). -/
theorem processCall_status_stable (registered : List String) (supported : String)
    (invoke : ToolCall → String) (acc : ToolBatchState) (tc : ToolCall)
    (h : (processCall registered supported invoke acc tc).finished = false) :
    (processCall registered supported invoke acc tc).status = acc.status := by
  by_cases hc : tc.name ∈ registered
  · by_cases hf : tc.name = "finish"
    · have hc2 : "finish" ∈ registered := hf ▸ hc
      simp [processCall, hc2, hf] at h
    · simp [processCall, hc, hf]
  · simp [processCall, hc]

/-- A batch fold that never reaches the finished state leaves the status
exactly as it started. -/
theorem foldl_status_stable (registered : List String) (supported : String)
    (invoke : ToolCall → String) :
    ∀ (calls : List ToolCall) (acc : ToolBatchState),
      (calls.foldl (processCall registered supported invoke) acc).finished = false →
      (calls.foldl (processCall registered supported invoke) acc).status = acc.status := by
  intro calls
  induction calls with
  | nil => intro acc _; rfl
  | cons tc rest ih =>
      intro acc h
      simp only [List.foldl_cons] at h ⊢
      cases h3 : (processCall registered supported invoke acc tc).finished with
      | false =>
          exact (ih _ h).trans
            (processCall_status_stable registered supported invoke acc tc h3)
      | true =>
          have hall := foldl_finished_mono registered supported invoke rest _ h3
          exact Bool.noConfusion (hall.symm.trans h)

/-- A `tool_node` run that does not process a finish keeps the incoming
status. -/
theorem tool_node_status_stable (registered : List String) (supported : String)
    (invoke : ToolCall → String) (status : Status) (calls : List ToolCall)
    (h : (tool_node registered supported invoke status calls).finished = false) :
    (tool_node registered supported invoke status calls).status = status :=
  foldl_status_stable registered supported invoke calls ⟨[], status, false, []⟩ h

/-- Every registered invocation of a batch is executed (in order), and the
batch ends `finished` exactly when it contains a registered finish call. -/
theorem foldl_batch_spec (registered : List String) (supported : String)
    (invoke : ToolCall → String) :
    ∀ (calls : List ToolCall) (acc : ToolBatchState),
      (calls.foldl (processCall registered supported invoke) acc).executed
          = acc.executed ++ calls.filter (fun tc => registered.contains tc.name)
        ∧ (calls.foldl (processCall registered supported invoke) acc).finished
          = (acc.finished
              || calls.any (fun tc => registered.contains tc.name && (tc.name == "finish"))) := by
  intro calls
  induction calls with
  | nil => intro acc; simp
  | cons tc rest ih =>
      intro acc
      simp only [List.foldl_cons, List.filter_cons, List.any_cons]
      by_cases hc : tc.name ∈ registered
      · by_cases hf : tc.name = "finish"
        · have hc2 : "finish" ∈ registered := hf ▸ hc
          have hp : processCall registered supported invoke acc tc
              = ⟨acc.results ++ [invoke tc],
                 classify_finish_reason acc.status (argReason tc), true,
                 acc.executed ++ [tc]⟩ := by
            simp [processCall, hc2, hf]
          rw [hp]
          obtain ⟨h1, h2⟩ := ih ⟨acc.results ++ [invoke tc],
            classify_finish_reason acc.status (argReason tc), true,
            acc.executed ++ [tc]⟩
          rw [h1, h2]
          simp [hc, hc2, hf, List.append_assoc]
        · have hf2 : (tc.name == "finish") = false := by simp [hf]
          have hp : processCall registered supported invoke acc tc
              = ⟨acc.results ++ [invoke tc], acc.status, acc.finished,
                 acc.executed ++ [tc]⟩ := by
            simp [processCall, hc, hf]
          rw [hp]
          obtain ⟨h1, h2⟩ := ih ⟨acc.results ++ [invoke tc], acc.status,
            acc.finished, acc.executed ++ [tc]⟩
          rw [h1, h2]
          simp [hc, hf2, List.append_assoc]
      · have hp : processCall registered supported invoke acc tc
            = ⟨acc.results ++ [unknown_tool_error tc.name supported], acc.status,
               acc.finished, acc.executed⟩ := by
          simp [processCall, hc]
        rw [hp]
        obtain ⟨h1, h2⟩ := ih ⟨acc.results ++ [unknown_tool_error tc.name supported],
          acc.status, acc.finished, acc.executed⟩
        rw [h1, h2]
        simp [hc]

/-- Claim C1 counterexample: the reason "Task Success: form submitted"
begins with neither "success" nor "failure" in any letter case (lowercasing
it and testing the prefixes is false), yet executing the finish invocation
sets the session status to success instead of leaving it in_progress. -/
theorem finish_reason_prefix_claim_cex :
    pyStartswith (pyLower (pyStrip "Task Success: form submitted")) "success" = false
      ∧ pyStartswith (pyLower (pyStrip "Task Success: form submitted")) "failure" = false
      ∧ (tool_node browser_tool_names browser_supported_names stub_invoke
          Status.in_progress [finish_call "Task Success: form submitted"]).status
        = Status.success
      ∧ (tool_node browser_tool_names browser_supported_names stub_invoke
          Status.in_progress [finish_call "Task Success: form submitted"]).finished
        = true := by
  decide

/-- Claim C1 (amended): executing a finish invocation always terminates the
loop (`finished` is set), and classifies the stripped, lowercased reason by
prefix - `"task success"` or `"success"` gives success, `"failure"` gives
failure, and any other reason leaves the status unchanged. -/
theorem finish_reason_classification (supported : String)
    (invoke : ToolCall → String) (st : Status) (r : String) :
    (tool_node browser_tool_names supported invoke st [finish_call r]).finished = true
      ∧ (tool_node browser_tool_names supported invoke st [finish_call r]).status
        = (if pyStartswith (pyLower (pyStrip r)) "task success"
              || pyStartswith (pyLower (pyStrip r)) "success" then Status.success
           else if pyStartswith (pyLower (pyStrip r)) "failure" then Status.failure
           else st) := by
  exact ⟨rfl, rfl⟩

/-- Claim C2 counterexample: in a single decision batch holding two finish
invocations, processing the first sets the terminal status success, and the
very next step overwrites it with failure - so a later step can change an
already-set terminal status within one tool turn. -/
theorem status_monotonic_cex :
    (processCall browser_tool_names browser_supported_names stub_invoke
        ⟨[], Status.in_progress, false, []⟩ (finish_call "Success: goal reached")).status
      = Status.success
    ∧ (processCall browser_tool_names browser_supported_names stub_invoke
        (processCall browser_tool_names browser_supported_names stub_invoke
          ⟨[], Status.in_progress, false, []⟩ (finish_call "Success: goal reached"))
        (finish_call "Failure: gave up")).status
      = Status.failure
    ∧ (tool_node browser_tool_names browser_supported_names stub_invoke
        Status.in_progress
        [finish_call "Success: goal reached", finish_call "Failure: gave up"]).status
      = Status.failure := by
  decide

/-- Claim C2 (amended): across turns the status is monotonic - any run of
the loop that has not reached END still carries its initial status, so a
terminal status can only be set by the turn that ends the session, and no
further turn is scheduled after it. (Within a single batch, by
`status_monotonic_cex`, a later finish may overwrite the classification.) -/
theorem status_monotonic_across_turns (registered : List String)
    (supported : String) (invoke : ToolCall → String)
    (decider : Nat → List ToolCall) :
    ∀ (fuel : Nat) (st : LoopState),
      (runLoop registered supported invoke decider fuel st).2 = false →
      (runLoop registered supported invoke decider fuel st).1.status = st.status := by
  intro fuel
  induction fuel with
  | zero => intro st _; rfl
  | succ n ih =>
      intro st h
      by_cases hb : (decider st.llmCalls).isEmpty
      · have hres : runLoop registered supported invoke decider (n + 1) st
            = runLoop registered supported invoke decider n
                ⟨st.status, st.llmCalls + 1⟩ := by
          simp [runLoop, hb]
        rw [hres] at h ⊢
        exact ih ⟨st.status, st.llmCalls + 1⟩ h
      · cases hf : (tool_node registered supported invoke st.status
            (decider st.llmCalls)).finished with
        | true =>
            exfalso
            have hres : runLoop registered supported invoke decider (n + 1) st
                = (⟨(tool_node registered supported invoke st.status
                      (decider st.llmCalls)).status, st.llmCalls + 1⟩, true) := by
              simp [runLoop, hb, hf]
            rw [hres] at h
            exact Bool.noConfusion h
        | false =>
            have hres : runLoop registered supported invoke decider (n + 1) st
                = runLoop registered supported invoke decider n
                    ⟨(tool_node registered supported invoke st.status
                        (decider st.llmCalls)).status, st.llmCalls + 1⟩ := by
              simp [runLoop, hb, hf]
            rw [hres] at h ⊢
            have hs := tool_node_status_stable registered supported invoke
              st.status (decider st.llmCalls) hf
            exact (ih _ h).trans hs

/-- Claim C2 witness: a three-turn run in which the decision model never
issues tool calls does not end and keeps the status in_progress. -/
theorem status_monotonic_across_turns_witness :
    (runLoop browser_tool_names browser_supported_names stub_invoke
        (fun _ => []) 3 ⟨Status.in_progress, 0⟩).2 = false
      ∧ (runLoop browser_tool_names browser_supported_names stub_invoke
          (fun _ => []) 3 ⟨Status.in_progress, 0⟩).1.status = Status.in_progress :=
  ⟨by decide,
   status_monotonic_across_turns browser_tool_names browser_supported_names
     stub_invoke (fun _ => []) 3 ⟨Status.in_progress, 0⟩ (by decide)⟩

/-- Claim C3 counterexample: a batch with a finish invocation followed by a
goto invocation executes both (the goto is invoked and its result recorded
after the finish), rather than ignoring what is queued after the finish. -/
theorem finish_skips_rest_cex :
    (tool_node browser_tool_names browser_supported_names stub_invoke
        Status.in_progress [finish_call "Task Success", goto_call]).executed
      = [finish_call "Task Success", goto_call]
    ∧ (tool_node browser_tool_names browser_supported_names stub_invoke
        Status.in_progress [finish_call "Task Success", goto_call]).results.length = 2
    ∧ (tool_node browser_tool_names browser_supported_names stub_invoke
        Status.in_progress [finish_call "Task Success", goto_call]).finished = true
    ∧ (tool_node browser_tool_names browser_supported_names stub_invoke
        Status.in_progress [finish_call "Task Success", goto_call]).status
      = Status.success := by
  decide

/-- Claim C3 (amended): when a decision batch contains a finish invocation,
the loop classifies and transitions to END only after processing the whole
batch - every registered invocation of the batch is executed in order
(including any queued after the finish), and the node ends finished exactly
when the batch holds a registered finish call. -/
theorem finish_executes_whole_batch (registered : List String)
    (supported : String) (invoke : ToolCall → String) (st : Status)
    (calls : List ToolCall) :
    (tool_node registered supported invoke st calls).executed
        = calls.filter (fun tc => registered.contains tc.name)
      ∧ (tool_node registered supported invoke st calls).finished
        = calls.any (fun tc => registered.contains tc.name && (tc.name == "finish")) := by
  have h := foldl_batch_spec registered supported invoke calls ⟨[], st, false, []⟩
  simpa [tool_node] using h

/-- Claim C4 counterexample: the finish tool (a cited tool of the registry)
returns "TASK_COMPLETE: <reason>" rather than an "OK: ..." or "ERROR: ..."
string, and the vision-grounded coord_click returns the bare normalized
point "(x, y)" on success - so the OK/ERROR result shape is not universal
across the action tools. -/
theorem tool_result_shape_cex :
    pyStartswith (finish "Task Success") "OK: " = false
      ∧ pyStartswith (finish "Task Success") "ERROR: " = false
      ∧ pyStartswith (coord_click happy_click_env).1 "OK: " = false
      ∧ pyStartswith (coord_click happy_click_env).1 "ERROR: " = false := by
  decide

/-- Claim C4 (amended): every tool wrapped by `_run_with_timeout` returns a
result string shaped "OK: <operation>" on success and
"ERROR: <exception kind>: <message>" on timeout or any raised error, and
never propagates an exception (the wrapper is total); the finish tool,
however, returns "TASK_COMPLETE: <reason>", and coord_click returns the
normalized point string on success together with bespoke error strings. -/
theorem tool_result_shape (op : String) (out : Except PyExc Unit) (r : String) :
    (∃ s, run_with_timeout op out = "OK: " ++ s
        ∨ run_with_timeout op out = "ERROR: " ++ s)
      ∧ finish r = "TASK_COMPLETE: " ++ r := by
  refine ⟨?_, rfl⟩
  cases out with
  | ok _ => exact ⟨op, Or.inl rfl⟩
  | error e =>
      exact ⟨e.kind ++ ": " ++ e.msg,
        Or.inr (by simp [run_with_timeout, String.append_assoc])⟩

/-- Claim C6: the manifest holds at most 300 lines, and those lines are
exactly the first 300 lines of the depth-first, parent-before-children
walk (when the walk already fits, nothing is dropped) - for both the
common builder of src/src/agent.py and the v1 builder of src/agent.py. -/
theorem manifest_cap_300 (root : AXTree) :
    (manifest_lines_common root).length ≤ 300
      ∧ manifest_lines_common root = (walk_common root).take 300
      ∧ ((walk_common root).length ≤ 300 →
          manifest_lines_common root = walk_common root)
      ∧ (manifest_lines_v1 root).length ≤ 300
      ∧ manifest_lines_v1 root = (walk_v1 root).take 300
      ∧ ((walk_v1 root).length ≤ 300 → manifest_lines_v1 root = walk_v1 root) := by
  refine ⟨?_, rfl, ?_, ?_, rfl, ?_⟩
  · exact List.length_take_le 300 (walk_common root)
  · intro h
    exact List.take_of_length_le h
  · exact List.length_take_le 300 (walk_v1 root)
  · intro h
    exact List.take_of_length_le h

/-- Claim C6 witness: on a small concrete tree the walk is under the cap
and the manifest equals the full walk output. -/
theorem manifest_cap_300_witness :
    (walk_common demo_tree).length ≤ 300
      ∧ manifest_lines_common demo_tree = walk_common demo_tree :=
  ⟨by decide, (manifest_cap_300 demo_tree).2.2.1 (by decide)⟩

/-- Claim C7 counterexample: a tree whose root is marked hidden but has a
visible named child still contributes that child's line to the manifest,
in both walks - the hidden subtree is not skipped entirely. -/
theorem hidden_subtree_cex :
    walk_common hidden_parent_tree = ["- button: OK"]
      ∧ walk_v1 hidden_parent_tree = ["- button: OK"]
      ∧ manifest_lines_common hidden_parent_tree = ["- button: OK"] := by
  decide

/-- Claim C7 (amended): a node marked hidden emits no manifest line of its
own, but its children are still walked (the children loop sits outside the
hidden check in both builders) and may contribute lines. -/
theorem hidden_node_children_still_walked (role name : Option String)
    (disabled : Bool) (children : AXForest) :
    walk_common (AXTree.node role name disabled true children)
        = walk_common_forest children
      ∧ walk_v1 (AXTree.node role name disabled true children)
        = walk_v1_forest children := by
  constructor
  · simp [walk_common]
  · simp [walk_v1]

/-- Evaluating a success predicate that is never satisfied always yields
false - a raised predicate is caught and treated as false. -/
theorem eval_is_success_false (is_success_at : Nat → Except PyExc Bool)
    (hs : ∀ k, is_success_at k ≠ Except.ok true) (k : Nat) :
    eval_is_success (is_success_at k) = false := by
  cases h : is_success_at k with
  | ok b =>
      cases b with
      | true => exact absurd h (hs k)
      | false => rfl
  | error e => rfl

/-- With a never-satisfied predicate, the budgeted loop started below the
ceiling runs down to exactly the ceiling: it reaches the terminal state
with `llm_calls = N` as soon as the fuel covers the missing cycles, and is
still running otherwise. -/
theorem run_agent_v1_budget (N : Nat) (is_success_at : Nat → Except PyExc Bool)
    (toolcalls_at : Nat → Bool)
    (hs : ∀ k, is_success_at k ≠ Except.ok true) :
    ∀ (fuel n : Nat), n < N →
      run_agent_v1 N is_success_at toolcalls_at fuel ⟨n, false⟩
        = (if N ≤ n + fuel then some ⟨N, false⟩ else none) := by
  intro fuel
  induction fuel with
  | zero =>
      intro n hn
      rw [if_neg (by omega)]
      rfl
  | succ m ih =>
      intro n hn
      have he : eval_is_success (is_success_at n) = false :=
        eval_is_success_false is_success_at hs n
      by_cases hN1 : N ≤ n + 1
      · have hNn : N = n + 1 := by omega
        have hres : run_agent_v1 N is_success_at toolcalls_at (m + 1) ⟨n, false⟩
            = some ⟨n + 1, false⟩ := by
          simp [run_agent_v1, he, hN1]
        rw [hres, if_pos (by omega), hNn]
      · have hn1 : n + 1 < N := by omega
        have harr : n + 1 + m = n + (m + 1) := by omega
        by_cases ht : toolcalls_at n
        · have hres : run_agent_v1 N is_success_at toolcalls_at (m + 1) ⟨n, false⟩
              = run_agent_v1 N is_success_at toolcalls_at m ⟨n + 1, false⟩ := by
            simp [run_agent_v1, he, hN1, ht]
          rw [hres, ih (n + 1) hn1, harr]
        · have hres : run_agent_v1 N is_success_at toolcalls_at (m + 1) ⟨n, false⟩
              = run_agent_v1 N is_success_at toolcalls_at m ⟨n + 1, false⟩ := by
            simp [run_agent_v1, he, hN1, ht]
          rw [hres, ih (n + 1) hn1, harr]

/-- Claim C5: with a call-budget ceiling of N, a decision model that never
satisfies the success predicate (it may raise or report false; the graph
has no finish tool to invoke) makes the session terminate after exactly N
observe cycles - the run returns normally as soon as the fuel covers N
cycles, with `llm_calls = N` and a non-success outcome, and is still
running on any smaller fuel. -/
theorem call_budget_termination (N fuel : Nat)
    (is_success_at : Nat → Except PyExc Bool) (toolcalls_at : Nat → Bool)
    (hN : 0 < N) (hs : ∀ k, is_success_at k ≠ Except.ok true) :
    (N ≤ fuel →
        run_agent_v1 N is_success_at toolcalls_at fuel ⟨0, false⟩
          = some ⟨N, false⟩)
      ∧ (fuel < N →
          run_agent_v1 N is_success_at toolcalls_at fuel ⟨0, false⟩ = none) := by
  have h := run_agent_v1_budget N is_success_at toolcalls_at hs fuel 0 hN
  constructor
  · intro hf
    rw [h, if_pos (by omega)]
  · intro hf
    rw [h, if_neg (by omega)]

/-- Claim C5 witness: with the configured ceiling `MAX_LLM_CALLS = 20`, a
predicate that always raises and a decision model that always issues tool
calls, the run terminates at exactly 20 observe cycles, non-success. -/
theorem call_budget_termination_witness :
    0 < MAX_LLM_CALLS
      ∧ run_agent_v1 MAX_LLM_CALLS
          (fun _ => Except.error ⟨"RuntimeError", "predicate raised"⟩)
          (fun _ => true) 25 ⟨0, false⟩
        = some ⟨MAX_LLM_CALLS, false⟩ :=
  ⟨by decide,
   (call_budget_termination MAX_LLM_CALLS 25
      (fun _ => Except.error ⟨"RuntimeError", "predicate raised"⟩)
      (fun _ => true) (by decide) (fun k h => Except.noConfusion h)).1 (by decide)⟩

/-- Claim C8: whenever the key is present, the screenshot succeeds and the
pointing collaborator answers with an empty points list, coord_click
returns the no-points error and its effects contain no click. -/
theorem no_points_no_click (env : CoordClickEnv)
    (hkey : pyTruthy env.apiKey = true)
    (hshot : env.screenshot = Except.ok ())
    (hpts : ∃ pts, env.point = AwaitOutcome.ok pts ∧ pts.getD [] = []) :
    coord_click env
        = ("ERROR: Moondream returned no points",
           [Effect.screenshotTaken, Effect.moondreamCalled])
      ∧ ∀ x y : ℚ, Effect.clicked x y ∉ (coord_click env).2 := by
  obtain ⟨pts, hpt, hnil⟩ := hpts
  have h1 : coord_click env
      = ("ERROR: Moondream returned no points",
         [Effect.screenshotTaken, Effect.moondreamCalled]) := by
    simp [coord_click, hkey, hshot, hpt, hnil]
  refine ⟨h1, ?_⟩
  intro x y
  simp [h1]

/-- Claim C8 witness: a concrete environment with a set key, a successful
screenshot and an empty points reply yields the no-points error. -/
theorem no_points_no_click_witness :
    pyTruthy (some "md-key") = true
      ∧ coord_click ⟨some "md-key", Except.ok (), AwaitOutcome.ok (some []),
          AwaitOutcome.ok ()⟩
        = ("ERROR: Moondream returned no points",
           [Effect.screenshotTaken, Effect.moondreamCalled]) :=
  ⟨by decide,
   (no_points_no_click ⟨some "md-key", Except.ok (), AwaitOutcome.ok (some []),
      AwaitOutcome.ok ()⟩ (by decide) rfl ⟨some [], rfl, rfl⟩).1⟩

/-- Claim C9: any script that does not parse to exactly one top-level
asynchronous function named main with a single parameter is rejected with
a structural "ERROR: format: ..." string and nothing of it is executed. -/
theorem script_format_rejection (parsed : ParseResult) (execResult : String)
    (h : ∀ stmts, parsed = ParseResult.ok stmts → script_format_ok stmts = false) :
    (∃ m, (run_script parsed execResult).1 = "ERROR: format: " ++ m)
      ∧ (run_script parsed execResult).2 = [] := by
  cases parsed with
  | failure msg => exact ⟨⟨msg, rfl⟩, rfl⟩
  | ok stmts =>
      have hf := h stmts rfl
      constructor
      · exact ⟨"script must contain exactly one top-level async def main taking one parameter",
          by simp [run_script, hf]⟩
      · simp [run_script, hf]

/-- Claim C9 witness: a script whose single top-level definition is a
synchronous `def main(handle)` is rejected without execution. -/
theorem script_format_rejection_witness :
    (∃ m, (run_script (ParseResult.ok [PyStmt.functionDef "main" 1 []]) "OK: None").1
        = "ERROR: format: " ++ m)
      ∧ (run_script (ParseResult.ok [PyStmt.functionDef "main" 1 []]) "OK: None").2
        = [] :=
  script_format_rejection (ParseResult.ok [PyStmt.functionDef "main" 1 []])
    "OK: None" (fun stmts h => by cases h; decide)

/-- Claim C10: when the MOONDREAM_API_KEY environment variable is unset,
coord_click returns exactly the missing-key error string and performs no
effect - no screenshot, no pointing call, no click. -/
theorem missing_api_key_guard (env : CoordClickEnv) (h : env.apiKey = none) :
    coord_click env
      = ("ERROR: MOONDREAM_API_KEY environment variable is not set", []) := by
  simp [coord_click, h, pyTruthy]

/-- Claim C10 witness: a concrete environment with the key unset. -/
theorem missing_api_key_guard_witness :
    coord_click ⟨none, Except.ok (), AwaitOutcome.ok none, AwaitOutcome.ok ()⟩
      = ("ERROR: MOONDREAM_API_KEY environment variable is not set", []) :=
  missing_api_key_guard
    ⟨none, Except.ok (), AwaitOutcome.ok none, AwaitOutcome.ok ()⟩ rfl
